import Mathlib

set_option maxRecDepth 8000

/-!
Verification development for the `webrtc-vad` crate: the Rust wrapper in
`src/lib.rs` around the libfvad voice-activity-detection engine.

The wrapper (`VadMode`, `SampleRate`, `SampleRate::try_from`, `Vad` and its
methods) is embedded directly from `src/lib.rs`.  The engine itself (the C
functions `fvad_new`, `fvad_reset`, `fvad_set_sample_rate`, `fvad_set_mode`,
`fvad_process`) lives in a git submodule that is not part of the repository
sources; those functions are modelled from the specification, as marked on
each definition.

Rust panics (the `&buffer[0]` index on an empty slice, `panic!` on allocation
failure, a failed `assert_eq!`) are modelled by an `Option` result whose
`none` value means "the call panicked and returned no value".
-/

deriving instance DecidableEq for Except

/-- `pub enum VadMode` from `src/lib.rs`: the four aggressiveness modes,
with discriminants 0..3. -/
inductive VadMode where
  | Quality
  | LowBitrate
  | Aggressive
  | VeryAggressive
deriving DecidableEq, Repr

/-- The numeric discriminant of a `VadMode` (the Rust cast `mode as i32`). -/
def VadMode.toInt : VadMode → Int
  | .Quality => 0
  | .LowBitrate => 1
  | .Aggressive => 2
  | .VeryAggressive => 3

/-- `pub enum SampleRate` from `src/lib.rs`: the four supported input sample
rates, with discriminants 8000/16000/32000/48000. -/
inductive SampleRate where
  | Rate8kHz
  | Rate16kHz
  | Rate32kHz
  | Rate48kHz
deriving DecidableEq, Repr

/-- The numeric discriminant of a `SampleRate` (the Rust cast
`sample_rate as i32`). -/
def SampleRate.toInt : SampleRate → Int
  | .Rate8kHz => 8000
  | .Rate16kHz => 16000
  | .Rate32kHz => 32000
  | .Rate48kHz => 48000

/-- `impl TryFrom<i32> for SampleRate` from `src/lib.rs`: the `match` on the
four literal rates, any other value yielding `Err("Invalid sample rate")`.
The function consumes no detector state. -/
def SampleRate.try_from (item : Int) : Except String SampleRate :=
  if item = 8000 then Except.ok SampleRate.Rate8kHz
  else if item = 16000 then Except.ok SampleRate.Rate16kHz
  else if item = 32000 then Except.ok SampleRate.Rate32kHz
  else if item = 48000 then Except.ok SampleRate.Rate48kHz
  else Except.error ("Invalid sample rate")

/-- Modelled from the spec: one Gaussian mixture component of the engine's
GMM state — "weight, mean, variance for each of 2 mixture components × 2
classes × 6 bands" (spec §3). -/
structure GaussComp where
  weight : Int
  mean : Int
  variance : Int
deriving DecidableEq, Repr

/-- Modelled from the spec: a class's two-component mixture in one band. -/
structure ClassMix where
  comp0 : GaussComp
  comp1 : GaussComp
deriving DecidableEq, Repr

/-- Modelled from the spec: the per-band GMM state — a noise-class mixture
and a speech-class mixture (spec §3, §4.3). -/
structure BandGmm where
  noise : ClassMix
  speech : ClassMix
deriving DecidableEq, Repr

/-- Modelled from the spec: the adaptive GMM state over the 6 sub-bands. -/
structure GmmState where
  bands : List BandGmm
deriving DecidableEq, Repr

/-- Modelled from the spec: the engine's persistent `DetectorState` —
current sample rate, current mode, adaptive GMM statistics, carry-over
filter delay line, and the frame counter used during adaptation (spec §3).
The C state behind the `*mut Fvad` pointer is modelled by value. -/
structure FvadState where
  rate : Int
  mode : Int
  gmm : GmmState
  filterDelay : List Int
  frameCounter : Nat
deriving DecidableEq, Repr

/-- Modelled from the spec: the positive variance floor that keeps
likelihoods non-degenerate (spec §3). -/
def varianceFloor : Int := 1

/-- Modelled from the spec: a default mixture component at a given mean,
with the variance at the floor. -/
def defaultComp (m : Int) : GaussComp :=
  { weight := 0, mean := m, variance := varianceFloor }

/-- Modelled from the spec: the built-in initial priors for one band — the
noise class centred on low log-energies, the speech class on high ones
(spec §3 "mixtures at built-in initial priors"; the exact numbers are a
calibrated table the spec leaves open, §9). -/
def defaultBand : BandGmm :=
  { noise := { comp0 := defaultComp 0, comp1 := defaultComp 4 }
  , speech := { comp0 := defaultComp 40, comp1 := defaultComp 60 } }

/-- Modelled from the spec: default priors for all 6 bands. -/
def defaultGmm : GmmState := { bands := List.replicate 6 defaultBand }

/-- Modelled from the spec: the built-in default engine state — 8000 Hz,
mode 0, default mixture priors, cleared delay lines, frame counter 0. -/
def fvadDefaultState : FvadState :=
  { rate := 8000, mode := 0, gmm := defaultGmm, filterDelay := [], frameCounter := 0 }

/-- Modelled from the spec: log-likelihood of an observed log-energy under
one Gaussian component, in fixed-point style — the weight minus the squared
distance to the mean scaled by the variance (spec §4.3). -/
def compLoglik (c : GaussComp) (e : Int) : Int :=
  c.weight - (e - c.mean) ^ 2 / c.variance

/-- Modelled from the spec: likelihood of an energy under a class's
2-component mixture, taking the better-matching component. -/
def mixLoglik (m : ClassMix) (e : Int) : Int :=
  max (compLoglik m.comp0 e) (compLoglik m.comp1 e)

/-- Modelled from the spec: the per-band log-likelihood ratio, speech
mixture versus non-speech mixture (spec §4.3). -/
def bandLLR (b : BandGmm) (e : Int) : Int :=
  mixLoglik b.speech e - mixLoglik b.noise e

/-- Modelled from the spec: fixed aggregation weights across bands, with
lower-frequency bands carrying higher weight (spec §4.3). -/
def bandWeights : List Int := [6, 5, 4, 3, 2, 1]

/-- Modelled from the spec: the aggregate classifier score — the weighted
sum of per-band log-likelihood ratios (spec §4.3). -/
def gmmScore (g : GmmState) (energies : List Int) : Int :=
  (List.zipWith (fun p w => w * bandLLR p.1 p.2) (g.bands.zip energies) bandWeights).sum

/-- Modelled from the spec: the per-mode decision threshold table — four
fixed thresholds, non-decreasing from mode 0 (most permissive) to mode 3
(most restrictive); the exact values are calibration constants the spec
leaves open (spec §4.3, §9). -/
def threshold (mode : Int) : Int :=
  if mode ≤ 0 then 0 else if mode = 1 then 200 else if mode = 2 then 400 else 600

/-- Modelled from the spec: sum of squared samples of a frame. -/
def sumSquares (frame : List Int) : Int :=
  (frame.map (fun x => x * x)).sum

/-- Fuel-driven integer base-2 logarithm (structural recursion, so that it
evaluates inside the kernel). -/
def ilog2Aux : Nat → Nat → Nat
  | 0, _ => 0
  | fuel + 1, n => if 2 ≤ n then ilog2Aux fuel (n / 2) + 1 else 0

/-- Integer base-2 logarithm, with `ilog2 0 = 0` and `ilog2 1 = 0`. -/
def ilog2 (n : Nat) : Nat := ilog2Aux n n

/-- Modelled from the spec: log-energy of a frame, "the log of the sum of
squared samples ... with a numeric floor to avoid log(0)" (spec §4.2); the
floor is realised by adding one before the integer base-2 log. -/
def logEnergy (frame : List Int) : Int :=
  Int.ofNat (ilog2 ((sumSquares frame).toNat + 1))

/-- Modelled from the spec: the 6-band filterbank feature vector (spec
§4.2).  The spec gives no quadrature-mirror filter coefficients, so each
band is modelled as carrying the frame's log-energy. -/
def bandEnergies (frame : List Int) : List Int :=
  List.replicate 6 (logEnergy frame)

/-- Modelled from the spec: decimation by an integer factor, the
downsampling half of the resampler (spec §4.1). -/
def decimate (k : Nat) (frame : List Int) : List Int :=
  (List.range (frame.length / k)).map (fun i => frame.getD (i * k) 0)

/-- Modelled from the spec: the resampler — identity at 8000 Hz, otherwise
decimation down to the 8 kHz internal rate (spec §4.1; the anti-aliasing
low-pass coefficients are a fixed table the spec does not give, and
decimation preserves the all-zero frames the claims exercise). -/
def resample (rate : Int) (frame : List Int) : List Int :=
  if rate = 8000 then frame else decimate (rate.toNat / 8000) frame

/-- Modelled from the spec: frame-length validation — the length must be
exactly 10, 20 or 30 ms at the configured rate, i.e. `rate/100`,
`2*rate/100` or `3*rate/100` samples (spec §4.2, §6). -/
def valid_length (rate : Int) (len : Nat) : Bool :=
  decide (100 * (len : Int) = rate ∨ 100 * (len : Int) = 2 * rate ∨
    100 * (len : Int) = 3 * rate)

/-- Modelled from the spec: exponentially-weighted update of one mixture
component towards an observed energy, with the variance clamped to the
floor (spec §4.3 "Adaptation"). -/
def adaptComp (c : GaussComp) (e : Int) : GaussComp :=
  let mean2 := c.mean + (e - c.mean) / 16
  let var2 := max varianceFloor (c.variance + ((e - mean2) ^ 2 - c.variance) / 16)
  { c with mean := mean2, variance := var2 }

/-- Modelled from the spec: within a class, update the component the
observed energy best matches. -/
def adaptMix (m : ClassMix) (e : Int) : ClassMix :=
  if compLoglik m.comp0 e < compLoglik m.comp1 e
  then { m with comp1 := adaptComp m.comp1 e }
  else { m with comp0 := adaptComp m.comp0 e }

/-- Modelled from the spec: per band, assign the observation to whichever
class it is most consistent with (by the same per-frame likelihoods, not by
the thresholded decision) and update that class's mixture (spec §4.3). -/
def adaptBand (b : BandGmm) (e : Int) : BandGmm :=
  if mixLoglik b.noise e < mixLoglik b.speech e
  then { b with speech := adaptMix b.speech e }
  else { b with noise := adaptMix b.noise e }

/-- Modelled from the spec: the online adaptation step over all bands, run
on every successfully processed frame regardless of the decision. -/
def adaptGmm (g : GmmState) (energies : List Int) : GmmState :=
  { bands := List.zipWith adaptBand g.bands energies }

/-- Modelled from the spec: `fvad_new` — allocates a fresh engine state at
the built-in defaults, or fails on memory exhaustion; the allocation
outcome is modelled by the `allocOk` flag (`none` = allocation failed). -/
def fvad_new (allocOk : Bool) : Option FvadState :=
  if allocOk then some fvadDefaultState else none

/-- Modelled from the spec: `fvad_reset` — reinitialises every field
(rate, mode, mixtures, delay lines, counters) to the built-in defaults,
discarding all adaptation history (spec §4.4, §6). -/
def fvad_reset (_f : FvadState) : FvadState :=
  fvadDefaultState

/-- Modelled from the spec: `fvad_set_sample_rate` — commits a legal rate
and returns 0; any other value is rejected with a nonzero result and the
state is left untouched (spec §4.4, §6). -/
def fvad_set_sample_rate (f : FvadState) (rate : Int) : Int × FvadState :=
  if rate = 8000 ∨ rate = 16000 ∨ rate = 32000 ∨ rate = 48000
  then (0, { f with rate := rate }) else (-1, f)

/-- Modelled from the spec: `fvad_set_mode` — commits a legal mode (0..3)
and returns 0; any other value is rejected with a nonzero result and the
state is left untouched (spec §4.4, §6). -/
def fvad_set_mode (f : FvadState) (mode : Int) : Int × FvadState :=
  if 0 ≤ mode ∧ mode ≤ 3 then (0, { f with mode := mode }) else (-1, f)

/-- Modelled from the spec: `fvad_process` — validates the frame length
against the configured rate (the single frame-length validation in the
pipeline); on failure returns -1 with the state untouched; on success
resamples to 8 kHz, extracts band energies, emits 1 iff the GMM score
exceeds the mode's threshold, else 0, and runs the adaptation step
(spec §4.1–§4.4, §6, §7). -/
def fvad_process (f : FvadState) (frame : List Int) : Int × FvadState :=
  if valid_length f.rate frame.length then
    let frame8 := resample f.rate frame
    let energies := bandEnergies frame8
    let speech := threshold f.mode < gmmScore f.gmm energies
    let f2 : FvadState :=
      { f with gmm := adaptGmm f.gmm energies
             , filterDelay := frame8.take 6
             , frameCounter := f.frameCounter + 1 }
    (if speech then 1 else 0, f2)
  else
    (-1, f)

/-- `pub struct Vad` from `src/lib.rs`: owns the engine state (the
`*mut Fvad` pointer's pointee, modelled by value). -/
structure Vad where
  fvad : FvadState
deriving DecidableEq, Repr

/-- `Vad::set_sample_rate` from `src/lib.rs`: casts the enum to i32 and
calls the engine inside `assert_eq!(…, 0)`; `none` models the panic of a
failed assert. -/
def Vad.set_sample_rate (v : Vad) (sample_rate : SampleRate) : Option Vad :=
  let r := fvad_set_sample_rate v.fvad sample_rate.toInt
  if r.1 = 0 then some ⟨r.2⟩ else none

/-- `Vad::set_mode` from `src/lib.rs`: casts the enum to i32 and calls the
engine inside `assert_eq!(…, 0)`; `none` models the panic of a failed
assert. -/
def Vad.set_mode (v : Vad) (mode : VadMode) : Option Vad :=
  let r := fvad_set_mode v.fvad mode.toInt
  if r.1 = 0 then some ⟨r.2⟩ else none

/-- `Vad::new_with_rate_and_mode` from `src/lib.rs`: calls `fvad_new`,
panics (`none`) if it returned null, then applies the requested rate and
mode through the asserting setters. -/
def Vad.new_with_rate_and_mode (allocOk : Bool) (sample_rate : SampleRate)
    (mode : VadMode) : Option Vad := do
  let f ← fvad_new allocOk
  let v1 ← Vad.set_sample_rate ⟨f⟩ sample_rate
  Vad.set_mode v1 mode

/-- `Vad::new` from `src/lib.rs`: defaults to 8 kHz and `Quality` mode. -/
def Vad.new (allocOk : Bool) : Option Vad :=
  Vad.new_with_rate_and_mode allocOk SampleRate.Rate8kHz VadMode.Quality

/-- `Vad::new_with_rate` from `src/lib.rs`: defaults to `Quality` mode. -/
def Vad.new_with_rate (allocOk : Bool) (sample_rate : SampleRate) : Option Vad :=
  Vad.new_with_rate_and_mode allocOk sample_rate VadMode.Quality

/-- `Vad::new_with_mode` from `src/lib.rs`: defaults to 8 kHz. -/
def Vad.new_with_mode (allocOk : Bool) (mode : VadMode) : Option Vad :=
  Vad.new_with_rate_and_mode allocOk SampleRate.Rate8kHz mode

/-- `Vad::reset` from `src/lib.rs`: delegates to `fvad_reset`. -/
def Vad.reset (v : Vad) : Vad :=
  ⟨fvad_reset v.fvad⟩

/-- `impl Default for Vad` from `src/lib.rs`: `Vad::new()`. -/
def Vad.defaultNew (allocOk : Bool) : Option Vad :=
  Vad.new allocOk

/-- `Vad::is_voice_segment` from `src/lib.rs`: first takes `&buffer[0]`,
which panics (`none`) on an empty slice before any validation or engine
call; otherwise calls `fvad_process` and maps 1 to `Ok(true)`, 0 to
`Ok(false)` and anything else to `Err(())`. -/
def Vad.is_voice_segment (v : Vad) (buffer : List Int) :
    Option (Except Unit Bool × Vad) :=
  if buffer = [] then none
  else
    let r := fvad_process v.fvad buffer
    if r.1 = 1 then some (Except.ok true, ⟨r.2⟩)
    else if r.1 = 0 then some (Except.ok false, ⟨r.2⟩)
    else some (Except.error (), ⟨r.2⟩)

/-- The detector produced by a successful `Vad::new()`. -/
def vadDefault : Vad := ⟨fvadDefaultState⟩

/-- A detector at the defaults except for mode 3 (`VeryAggressive`). -/
def vadMode3 : Vad := ⟨{ fvadDefaultState with mode := 3 }⟩

/-- The decision component of an `is_voice_segment` outcome, discarding the
successor state. -/
def decisionOf (r : Option (Except Unit Bool × Vad)) : Option (Except Unit Bool) :=
  r.map Prod.fst

/-- Number of frames of a stream classified as speech, threading the
detector state from frame to frame; a panic (`none`) aborts the stream. -/
def countSpeech : Vad → List (List Int) → Nat
  | _, [] => 0
  | v, f :: fs =>
    match Vad.is_voice_segment v f with
    | some (Except.ok true, v2) => countSpeech v2 fs + 1
    | some (Except.ok false, v2) => countSpeech v2 fs
    | some (Except.error _, v2) => countSpeech v2 fs
    | none => 0

/-- The configuration invariant: the configured rate is one of the four
supported values and the mode is in [0, 3] (spec §3). -/
def WF (v : Vad) : Prop :=
  (v.fvad.rate = 8000 ∨ v.fvad.rate = 16000 ∨ v.fvad.rate = 32000 ∨
    v.fvad.rate = 48000) ∧ 0 ≤ v.fvad.mode ∧ v.fvad.mode ≤ 3

instance (v : Vad) : Decidable (WF v) := by
  unfold WF
  infer_instance

/-! ### Helper lemmas -/

theorem getD_replicate_zero (n j : Nat) : (List.replicate n (0 : Int)).getD j 0 = 0 := by
  induction n generalizing j with
  | zero => simp [List.getD]
  | succ n ih =>
    cases j with
    | zero => simp [List.replicate_succ]
    | succ j => simp [List.replicate_succ, ih j]

theorem sumSquares_zero_of_mem {l : List Int} (h : ∀ x ∈ l, x = 0) :
    sumSquares l = 0 := by
  induction l with
  | nil => rfl
  | cons x xs ih =>
    have hx : x = 0 := h x (by simp)
    have hxs : ∀ y ∈ xs, y = 0 := fun y hy => h y (by simp [hy])
    simp only [sumSquares, List.map_cons, List.sum_cons, hx]
    simp only [sumSquares] at ih
    simp [ih hxs]

theorem resample_replicate_zero_mem (r : Int) (n : Nat) :
    ∀ x ∈ resample r (List.replicate n 0), x = 0 := by
  intro x hx
  unfold resample at hx
  split at hx
  · exact List.eq_of_mem_replicate hx
  · unfold decimate at hx
    simp only [List.mem_map, List.mem_range] at hx
    obtain ⟨i, _, hi⟩ := hx
    rw [← hi]
    exact getD_replicate_zero n _

theorem bandEnergies_resample_zeros (r : Int) (n : Nat) :
    bandEnergies (resample r (List.replicate n 0)) = List.replicate 6 0 := by
  have h := sumSquares_zero_of_mem (resample_replicate_zero_mem r n)
  simp [bandEnergies, logEnergy, h]
  rfl

theorem score_silence : gmmScore defaultGmm (List.replicate 6 0) = -33600 := by
  decide

theorem fvad_process_zeros (R : Int) (d : List Int) (c : Nat) (n : Nat)
    (hv : valid_length R n = true) :
    (fvad_process ⟨R, 0, defaultGmm, d, c⟩ (List.replicate n 0)).1 = 0 := by
  unfold fvad_process
  simp only [List.length_replicate]
  rw [if_pos hv]
  have hE := bandEnergies_resample_zeros R n
  simp only [hE, score_silence]
  norm_num [threshold]

theorem is_voice_segment_zeros (R : Int) (d : List Int) (c : Nat) (n : Nat)
    (hn : n ≠ 0) (hv : valid_length R n = true) :
    decisionOf (Vad.is_voice_segment ⟨⟨R, 0, defaultGmm, d, c⟩⟩ (List.replicate n 0))
      = some (Except.ok false) := by
  have hne : (List.replicate n (0 : Int)) ≠ [] := by
    intro hcon
    exact hn (by simpa using congrArg List.length hcon)
  have h0 := fvad_process_zeros R d c n hv
  unfold Vad.is_voice_segment
  rw [if_neg hne]
  simp only [h0]
  norm_num [decisionOf]

theorem threshold_mono {a b : Int} (h : a ≤ b) : threshold a ≤ threshold b := by
  unfold threshold
  split_ifs <;> omega

theorem is_voice_segment_invalid (r m : Int) (g : GmmState) (d : List Int)
    (c : Nat) (fr : List Int) (hfr : fr ≠ [])
    (hv : valid_length r fr.length = false) :
    Vad.is_voice_segment ⟨⟨r, m, g, d, c⟩⟩ fr
      = some (Except.error (), ⟨⟨r, m, g, d, c⟩⟩) := by
  simp only [Vad.is_voice_segment, fvad_process, hfr, hv, if_neg, if_false,
    Bool.false_eq_true]
  norm_num

theorem is_voice_segment_valid (r m : Int) (g : GmmState) (d : List Int)
    (c : Nat) (fr : List Int) (hfr : fr ≠ [])
    (hv : valid_length r fr.length = true) :
    Vad.is_voice_segment ⟨⟨r, m, g, d, c⟩⟩ fr
      = (if threshold m < gmmScore g (bandEnergies (resample r fr))
         then some (Except.ok true,
           ⟨⟨r, m, adaptGmm g (bandEnergies (resample r fr)),
             (resample r fr).take 6, c + 1⟩⟩)
         else some (Except.ok false,
           ⟨⟨r, m, adaptGmm g (bandEnergies (resample r fr)),
             (resample r fr).take 6, c + 1⟩⟩)) := by
  simp only [Vad.is_voice_segment, fvad_process, hfr, hv, if_true]
  by_cases hs : threshold m < gmmScore g (bandEnergies (resample r fr))
  · simp [hs]
  · simp [hs]

theorem countSpeech_cons (v : Vad) (f : List Int) (fs : List (List Int)) :
    countSpeech v (f :: fs)
      = match Vad.is_voice_segment v f with
        | some (Except.ok true, v2) => countSpeech v2 fs + 1
        | some (Except.ok false, v2) => countSpeech v2 fs
        | some (Except.error _, v2) => countSpeech v2 fs
        | none => 0 := rfl

theorem countSpeech_mode_mono (frames : List (List Int)) :
    ∀ (r m1 m2 : Int) (g : GmmState) (d : List Int) (c : Nat),
      threshold m1 ≤ threshold m2 →
      countSpeech ⟨⟨r, m2, g, d, c⟩⟩ frames ≤ countSpeech ⟨⟨r, m1, g, d, c⟩⟩ frames := by
  induction frames with
  | nil => intro r m1 m2 g d c h; exact Nat.le_refl 0
  | cons fr fs ih =>
    intro r m1 m2 g d c h
    rw [countSpeech_cons, countSpeech_cons]
    by_cases hfr : fr = []
    · subst hfr
      simp [Vad.is_voice_segment]
    · by_cases hv : valid_length r fr.length = true
      · rw [is_voice_segment_valid r m2 g d c fr hfr hv,
          is_voice_segment_valid r m1 g d c fr hfr hv]
        by_cases h2 : threshold m2 < gmmScore g (bandEnergies (resample r fr))
        · have h1 : threshold m1 < gmmScore g (bandEnergies (resample r fr)) :=
            lt_of_le_of_lt h h2
          rw [if_pos h2, if_pos h1]
          exact Nat.succ_le_succ (ih r m1 m2 _ _ _ h)
        · rw [if_neg h2]
          by_cases h1 : threshold m1 < gmmScore g (bandEnergies (resample r fr))
          · rw [if_pos h1]
            exact Nat.le_trans (ih r m1 m2 _ _ _ h) (Nat.le_succ _)
          · rw [if_neg h1]
            exact ih r m1 m2 _ _ _ h
      · have hv2 : valid_length r fr.length = false := by simpa using hv
        rw [is_voice_segment_invalid r m2 g d c fr hfr hv2,
          is_voice_segment_invalid r m1 g d c fr hfr hv2]
        exact ih r m1 m2 g d c h

/-! ### Claims -/

/-- C3: converting an i32 to a sample rate (`SampleRate::try_from`) succeeds
exactly on {8000, 16000, 32000, 48000}, yielding the matching variant, and
fails with the invalid-rate error on every other value.  `try_from` consumes
no detector state, so a failed conversion cannot mutate any detector. -/
theorem C3_try_from_exact (r : Int) :
    (r = 8000 → SampleRate.try_from r = Except.ok SampleRate.Rate8kHz)
    ∧ (r = 16000 → SampleRate.try_from r = Except.ok SampleRate.Rate16kHz)
    ∧ (r = 32000 → SampleRate.try_from r = Except.ok SampleRate.Rate32kHz)
    ∧ (r = 48000 → SampleRate.try_from r = Except.ok SampleRate.Rate48kHz)
    ∧ (r ≠ 8000 ∧ r ≠ 16000 ∧ r ≠ 32000 ∧ r ≠ 48000 →
        SampleRate.try_from r = Except.error ("Invalid sample rate")) := by
  refine ⟨?_, ?_, ?_, ?_, ?_⟩ <;> intro h
  · rw [h]; rfl
  · rw [h]; rfl
  · rw [h]; rfl
  · rw [h]; rfl
  · unfold SampleRate.try_from
    rw [if_neg h.1, if_neg h.2.1, if_neg h.2.2.1, if_neg h.2.2.2]

/-- Witness for C3: the conversion succeeds at 8000 and fails at 44100. -/
theorem C3_try_from_exact_witness :
    SampleRate.try_from 8000 = Except.ok SampleRate.Rate8kHz
    ∧ SampleRate.try_from 44100 = Except.error ("Invalid sample rate") :=
  ⟨(C3_try_from_exact 8000).1 rfl,
   (C3_try_from_exact 44100).2.2.2.2 (by norm_num)⟩

/-- C4: a successful `Vad::new()` (and `Vad::default()`, which delegates to
it) yields the default session: sample rate 8000 Hz and mode 0 (Quality),
with the default mixture priors, cleared delay line and zero frame count. -/
theorem C4_new_defaults :
    Vad.new true = some vadDefault
    ∧ Vad.defaultNew true = some vadDefault
    ∧ vadDefault.fvad.rate = 8000
    ∧ vadDefault.fvad.mode = VadMode.Quality.toInt
    ∧ vadDefault.fvad.gmm = defaultGmm
    ∧ vadDefault.fvad.filterDelay = []
    ∧ vadDefault.fvad.frameCounter = 0 :=
  ⟨rfl, rfl, rfl, rfl, rfl, rfl, rfl⟩

/-- C5: `reset` is idempotent — resetting twice equals resetting once — and
the state after a reset is exactly the built-in default state (8000 Hz,
mode 0, default mixture priors, cleared delay lines, zero frame counter),
whatever the state was before. -/
theorem C5_reset_idempotent (v : Vad) :
    Vad.reset (Vad.reset v) = Vad.reset v
    ∧ Vad.reset v = vadDefault
    ∧ (Vad.reset v).fvad.rate = 8000
    ∧ (Vad.reset v).fvad.mode = 0
    ∧ (Vad.reset v).fvad.gmm = defaultGmm
    ∧ (Vad.reset v).fvad.filterDelay = []
    ∧ (Vad.reset v).fvad.frameCounter = 0 :=
  ⟨rfl, rfl, rfl, rfl, rfl, rfl, rfl⟩

/-- C7: when allocation fails during construction, `new_with_rate_and_mode`
panics (modelled by `none`): for every requested rate and mode, no detector
instance — partial or otherwise — is returned to the caller. -/
theorem C7_alloc_failure_fatal (sample_rate : SampleRate) (mode : VadMode) :
    Vad.new_with_rate_and_mode false sample_rate mode = none := rfl

/-- C9: calling `is_voice_segment` with an empty buffer panics (modelled by
`none`) for every detector state — the `&buffer[0]` borrow is evaluated
before any frame-length validation or engine call, so no `Err` value is
ever produced for length 0. -/
theorem C9_empty_buffer_panics (v : Vad) :
    Vad.is_voice_segment v [] = none := rfl

/-- C10: `set_sample_rate` and `set_mode` are total: for every `SampleRate`
and `VadMode` value the engine configuration call returns 0, so the
`assert_eq!` never fires and the setters return the reconfigured detector. -/
theorem C10_setters_total (v : Vad) (sample_rate : SampleRate) (mode : VadMode) :
    (fvad_set_sample_rate v.fvad sample_rate.toInt).1 = 0
    ∧ (fvad_set_mode v.fvad mode.toInt).1 = 0
    ∧ Vad.set_sample_rate v sample_rate
        = some ⟨(fvad_set_sample_rate v.fvad sample_rate.toInt).2⟩
    ∧ Vad.set_mode v mode = some ⟨(fvad_set_mode v.fvad mode.toInt).2⟩ := by
  have hr : (fvad_set_sample_rate v.fvad sample_rate.toInt).1 = 0 := by
    cases sample_rate <;> simp [fvad_set_sample_rate, SampleRate.toInt]
  have hm : (fvad_set_mode v.fvad mode.toInt).1 = 0 := by
    cases mode <;> simp [fvad_set_mode, VadMode.toInt]
  refine ⟨hr, hm, ?_, ?_⟩
  · unfold Vad.set_sample_rate
    rw [if_pos hr]
  · unfold Vad.set_mode
    rw [if_pos hm]

/-- C1: frame-length handling of `is_voice_segment`.  At the failing input —
the empty buffer, whose length 0 is never a valid frame length — the code
panics on the `&buffer[0]` index (modelled `none`) instead of returning the
`Err(())` its documentation promises for an invalid frame length.  For every
nonempty buffer the claimed behaviour holds: a length that is not 10/20/30 ms
at the configured rate yields `Err(())` with the detector state exactly as it
was before the call, and a valid length yields `Ok(true)` or `Ok(false)`. -/
theorem C1_frame_length_errors :
    Vad.is_voice_segment vadDefault [] = none
    ∧ (∀ (v : Vad) (buffer : List Int), buffer ≠ [] →
        (valid_length v.fvad.rate buffer.length = false →
          Vad.is_voice_segment v buffer = some (Except.error (), v))
        ∧ (valid_length v.fvad.rate buffer.length = true →
          decisionOf (Vad.is_voice_segment v buffer) = some (Except.ok true)
          ∨ decisionOf (Vad.is_voice_segment v buffer) = some (Except.ok false))) := by
  refine ⟨rfl, ?_⟩
  intro v buffer hne
  obtain ⟨⟨r, m, g, d, c⟩⟩ := v
  constructor
  · intro hv
    exact is_voice_segment_invalid r m g d c buffer hne hv
  · intro hv
    rw [decisionOf, is_voice_segment_valid r m g d c buffer hne hv]
    by_cases hs : threshold m < gmmScore g (bandEnergies (resample r buffer))
    · left; rw [if_pos hs]; rfl
    · right; rw [if_neg hs]; rfl

/-- Witness for C1: a one-sample buffer at the default 8000 Hz rate is
rejected with `Err(())` and the state is returned unchanged. -/
theorem C1_frame_length_errors_witness :
    Vad.is_voice_segment vadDefault [0] = some (Except.error (), vadDefault) :=
  (C1_frame_length_errors.2 vadDefault [0] (by decide)).1 (by decide)

/-- C2: for every supported sample rate and every frame duration in
{10, 20, 30} ms (duration multiple `m` of 10 ms), a freshly created detector
at that rate — equivalently, a freshly reset detector whose rate was then
configured — fed a correctly sized all-zero buffer succeeds and returns
`Ok(false)`: silence is never classified as speech. -/
theorem C2_silence_never_speech (sr : SampleRate) (m : Nat)
    (hm : m = 1 ∨ m = 2 ∨ m = 3) (v : Vad)
    (hv : Vad.new_with_rate true sr = some v
      ∨ (∃ w : Vad, Vad.set_sample_rate (Vad.reset w) sr = some v)) :
    decisionOf (Vad.is_voice_segment v
        (List.replicate (m * sr.toInt.toNat / 100) 0))
      = some (Except.ok false) := by
  have hveq : v = ⟨⟨sr.toInt, 0, defaultGmm, [], 0⟩⟩ := by
    rcases hv with h | ⟨w, h⟩
    · cases sr <;> exact (Option.some.inj h).symm
    · cases sr <;> exact (Option.some.inj h).symm
  subst hveq
  rcases hm with h | h | h <;> subst h <;> cases sr <;>
    · apply is_voice_segment_zeros <;> decide

/-- Witness for C2: 10 ms of silence at 8000 Hz on a fresh detector. -/
theorem C2_silence_never_speech_witness :
    decisionOf (Vad.is_voice_segment ⟨⟨(8000 : Int), 0, defaultGmm, [], 0⟩⟩
        (List.replicate 80 0))
      = some (Except.ok false) :=
  C2_silence_never_speech SampleRate.Rate8kHz 1 (Or.inl rfl)
    ⟨⟨(8000 : Int), 0, defaultGmm, [], 0⟩⟩ (Or.inl rfl)

/-- C6: the configuration invariant — the rate is one of
{8000, 16000, 32000, 48000} and the mode is in [0, 3] — holds after
creation and reset, and is preserved by rate/mode reconfiguration and by
`is_voice_segment`. -/
theorem C6_config_invariant :
    (∀ a v, Vad.new a = some v → WF v)
    ∧ (∀ a sr mo v, Vad.new_with_rate_and_mode a sr mo = some v → WF v)
    ∧ (∀ v, WF (Vad.reset v))
    ∧ (∀ v sr v2, WF v → Vad.set_sample_rate v sr = some v2 → WF v2)
    ∧ (∀ v mo v2, WF v → Vad.set_mode v mo = some v2 → WF v2)
    ∧ (∀ v buf res v2, WF v → Vad.is_voice_segment v buf = some (res, v2) → WF v2) := by
  refine ⟨?_, ?_, ?_, ?_, ?_, ?_⟩
  · intro a v h
    cases a
    · simp [Vad.new, Vad.new_with_rate_and_mode, fvad_new] at h
    · have h2 := Option.some.inj h
      subst h2
      decide
  · intro a sr mo v h
    cases a
    · simp [Vad.new_with_rate_and_mode, fvad_new] at h
    · cases sr <;> cases mo <;>
        · have h2 := Option.some.inj h
          subst h2
          decide
  · intro v
    exact (by decide : WF ⟨fvadDefaultState⟩)
  · intro v sr v2 hwf h
    obtain ⟨⟨r, m, g, d, c⟩⟩ := v
    cases sr <;>
      · have h2 := Option.some.inj h
        subst h2
        refine ⟨?_, hwf.2⟩
        norm_num [fvad_set_sample_rate, SampleRate.toInt]
  · intro v mo v2 hwf h
    obtain ⟨⟨r, m, g, d, c⟩⟩ := v
    cases mo <;>
      · have h2 := Option.some.inj h
        subst h2
        refine ⟨hwf.1, ?_⟩
        norm_num [fvad_set_mode, VadMode.toInt]
  · intro v buf res v2 hwf h
    obtain ⟨⟨r, m, g, d, c⟩⟩ := v
    by_cases hne : buf = []
    · subst hne
      simp [Vad.is_voice_segment] at h
    · by_cases hv : valid_length r buf.length = true
      · rw [is_voice_segment_valid r m g d c buf hne hv] at h
        by_cases hs : threshold m < gmmScore g (bandEnergies (resample r buf))
        · rw [if_pos hs] at h
          injection h with h1
          injection h1 with ha hb
          subst hb
          exact ⟨hwf.1, hwf.2⟩
        · rw [if_neg hs] at h
          injection h with h1
          injection h1 with ha hb
          subst hb
          exact ⟨hwf.1, hwf.2⟩
      · have hv2 : valid_length r buf.length = false := by simpa using hv
        rw [is_voice_segment_invalid r m g d c buf hne hv2] at h
        injection h with h1
        injection h1 with ha hb
        subst hb
        exact hwf

/-- Witness for C6: reconfiguring the default detector to mode 1 keeps the
invariant. -/
theorem C6_config_invariant_witness :
    WF ⟨{ fvadDefaultState with mode := 1 }⟩ :=
  C6_config_invariant.2.2.2.2.1 vadDefault VadMode.LowBitrate
    ⟨{ fvadDefaultState with mode := 1 }⟩ (by decide) (by decide)

/-- C8: mode monotonicity — starting from the same detector state and the
same stream of frames, the number of frames classified as speech under the
higher (more aggressive) mode never exceeds the number under the lower
mode, because the decision threshold is non-decreasing in the mode and the
adaptation step is independent of the mode. -/
theorem C8_mode_monotone (v : Vad) (m1 m2 : VadMode)
    (hm : m1.toInt ≤ m2.toInt) (frames : List (List Int)) (v1 v2 : Vad)
    (h1 : Vad.set_mode v m1 = some v1) (h2 : Vad.set_mode v m2 = some v2) :
    countSpeech v2 frames ≤ countSpeech v1 frames := by
  obtain ⟨⟨r, m0, g, d, c⟩⟩ := v
  have e1 : v1 = ⟨⟨r, m1.toInt, g, d, c⟩⟩ := by
    cases m1 <;> exact (Option.some.inj h1).symm
  have e2 : v2 = ⟨⟨r, m2.toInt, g, d, c⟩⟩ := by
    cases m2 <;> exact (Option.some.inj h2).symm
  subst e1
  subst e2
  exact countSpeech_mode_mono frames r m1.toInt m2.toInt g d c (threshold_mono hm)

/-- Witness for C8: one 10 ms frame of silence, mode 0 versus mode 3. -/
theorem C8_mode_monotone_witness :
    countSpeech vadMode3 [List.replicate 80 0]
      ≤ countSpeech vadDefault [List.replicate 80 0] :=
  C8_mode_monotone vadDefault VadMode.Quality VadMode.VeryAggressive (by decide)
    [List.replicate 80 0] vadDefault vadMode3 (by decide) (by decide)
